import Mathlib

/-!
Verification of the prometheus-kemp-exporter collection core
(src/cmd/server.go) against its natural-language specification.

The Go program is shallowly embedded: the Kemp statistics snapshot becomes
a Lean structure, each prometheus gauge / gauge vector becomes a field of a
`Registry` record, one iteration of the collector goroutine body becomes the
pure function `updateCycle`, and the whole loop (including the fail-fast
`os.Exit(1)` on a fetch error) becomes a fold `runLoop` over a list of fetch
results. Gauge values are modelled as integers (every value written by the
program is `float64(i)` for a Go integer `i`); a gauge vector is a partial
map from the `(address, port-string)` label pair to the current value, with
`none` meaning the child gauge has never been created.
-/

namespace KempExporter

/-- Global totals of a statistics snapshot, as delivered by the Kemp client
(`statistics.Totals` in server.go lines 151-153). -/
structure Totals where
  ConnectionsPerSec : Int
  BytesPerSec : Int
  PacketsPerSec : Int
  deriving Repr, DecidableEq

/-- One virtual-server or real-server record of a snapshot: the fields read
by the loop bodies at server.go lines 155-173. -/
structure ServerStat where
  Address : String
  Port : Int
  TotalConnections : Int
  TotalPackets : Int
  TotalBytes : Int
  ActiveConnections : Int
  ConnectionsPerSec : Int
  BytesRead : Int
  BytesWritten : Int
  deriving Repr, DecidableEq

/-- A statistics snapshot returned by one `client.GetStatistics()` call. -/
structure Statistics where
  Totals : Totals
  VirtualServers : List ServerStat
  RealServers : List ServerStat
  deriving Repr, DecidableEq

/-- A prometheus GaugeVec with labels `["address", "port"]`: a partial map
from the label-value pair to the child gauge value; `none` means
`WithLabelValues` has never been called for that pair. -/
def GaugeVec : Type := String × String → Option Int

/-- The combination `vec.WithLabelValues(a, p).Set(v)`: create-or-update the
child gauge for the label pair `k` with value `v`, leaving every other
label pair untouched. -/
def GaugeVec.set (g : GaugeVec) (k : String × String) (v : Int) : GaugeVec :=
  fun k2 => if k2 = k then some v else g k2

/-- Read the child gauge for a label pair (what a scrape reports for it). -/
def GaugeVec.get (g : GaugeVec) (k : String × String) : Option Int := g k

/-- The label pair used for a server record throughout server.go:
`vs.Address` and `strconv.Itoa(vs.Port)` — the port in decimal string form. -/
def statKey (vs : ServerStat) : String × String := (vs.Address, toString vs.Port)

/-- The metric registry: the three unlabeled gauges and the fourteen gauge
vectors declared at server.go lines 28-98, all registered in `init`. -/
structure Registry where
  connsPerSec : Int
  bytesPerSec : Int
  packetsPerSec : Int
  virtualServerTotalConnections : GaugeVec
  virtualServerTotalPackets : GaugeVec
  virtualServerTotalBytes : GaugeVec
  virtualServerActiveConnections : GaugeVec
  virtualServerConnsPerSec : GaugeVec
  virtualServerBytesRead : GaugeVec
  virtualServerBytesWritten : GaugeVec
  realServerTotalConnections : GaugeVec
  realServerTotalPackets : GaugeVec
  realServerTotalBytes : GaugeVec
  realServerActiveConnections : GaugeVec
  realServerConnsPerSec : GaugeVec
  realServerBytesRead : GaugeVec
  realServerBytesWritten : GaugeVec

attribute [ext] Registry

/-- The registry at process start: unlabeled gauges at zero, every gauge
vector with no children (prometheus gauges are created at zero and a
GaugeVec starts empty). -/
def initialRegistry : Registry where
  connsPerSec := 0
  bytesPerSec := 0
  packetsPerSec := 0
  virtualServerTotalConnections := fun _ => none
  virtualServerTotalPackets := fun _ => none
  virtualServerTotalBytes := fun _ => none
  virtualServerActiveConnections := fun _ => none
  virtualServerConnsPerSec := fun _ => none
  virtualServerBytesRead := fun _ => none
  virtualServerBytesWritten := fun _ => none
  realServerTotalConnections := fun _ => none
  realServerTotalPackets := fun _ => none
  realServerTotalBytes := fun _ => none
  realServerActiveConnections := fun _ => none
  realServerConnsPerSec := fun _ => none
  realServerBytesRead := fun _ => none
  realServerBytesWritten := fun _ => none

/-- Body of the virtual-server loop (server.go lines 155-163): set the seven
virtual-server gauge vectors at the record's label pair. -/
def setVirtualServer (r : Registry) (vs : ServerStat) : Registry :=
  { r with
    virtualServerTotalConnections :=
      r.virtualServerTotalConnections.set (statKey vs) vs.TotalConnections
    virtualServerTotalPackets :=
      r.virtualServerTotalPackets.set (statKey vs) vs.TotalPackets
    virtualServerTotalBytes :=
      r.virtualServerTotalBytes.set (statKey vs) vs.TotalBytes
    virtualServerActiveConnections :=
      r.virtualServerActiveConnections.set (statKey vs) vs.ActiveConnections
    virtualServerConnsPerSec :=
      r.virtualServerConnsPerSec.set (statKey vs) vs.ConnectionsPerSec
    virtualServerBytesRead :=
      r.virtualServerBytesRead.set (statKey vs) vs.BytesRead
    virtualServerBytesWritten :=
      r.virtualServerBytesWritten.set (statKey vs) vs.BytesWritten }

/-- Body of the real-server loop (server.go lines 165-173): set the seven
real-server gauge vectors at the record's label pair. -/
def setRealServer (r : Registry) (rs : ServerStat) : Registry :=
  { r with
    realServerTotalConnections :=
      r.realServerTotalConnections.set (statKey rs) rs.TotalConnections
    realServerTotalPackets :=
      r.realServerTotalPackets.set (statKey rs) rs.TotalPackets
    realServerTotalBytes :=
      r.realServerTotalBytes.set (statKey rs) rs.TotalBytes
    realServerActiveConnections :=
      r.realServerActiveConnections.set (statKey rs) rs.ActiveConnections
    realServerConnsPerSec :=
      r.realServerConnsPerSec.set (statKey rs) rs.ConnectionsPerSec
    realServerBytesRead :=
      r.realServerBytesRead.set (statKey rs) rs.BytesRead
    realServerBytesWritten :=
      r.realServerBytesWritten.set (statKey rs) rs.BytesWritten }

/-- One successful cycle of the collector goroutine (server.go lines
151-173): set the three unlabeled gauges from `Totals`, then run the
virtual-server loop over `VirtualServers` in order, then the real-server
loop over `RealServers` in order. -/
def updateCycle (r : Registry) (s : Statistics) : Registry :=
  s.RealServers.foldl setRealServer
    (s.VirtualServers.foldl setVirtualServer
      { r with
        connsPerSec := s.Totals.ConnectionsPerSec
        bytesPerSec := s.Totals.BytesPerSec
        packetsPerSec := s.Totals.PacketsPerSec })

/-- Result of one `client.GetStatistics()` call: a snapshot, or an error
(the Go `error` value is abstracted to its message string). -/
inductive FetchResult where
  | ok (s : Statistics)
  | err (msg : String)
  deriving Repr, DecidableEq

/-- Observable state of the exporter process while the collector goroutine
runs: the shared registry, the exit status once `os.Exit` has been called
(`none` while the process is alive), and how many `GetStatistics` calls
have been made. -/
structure LoopState where
  registry : Registry
  exitCode : Option Nat
  fetches : Nat

/-- One iteration of the collector goroutine (server.go lines 144-176) fed
with the result of its `GetStatistics` call. After `os.Exit` nothing runs,
so an exited state absorbs further results; on an error the process exits
with status 1 without touching the registry; on success the registry is
updated by `updateCycle` (the sleep changes no observable state). -/
def loopStep (st : LoopState) (f : FetchResult) : LoopState :=
  match st.exitCode with
  | some _ => st
  | none =>
    match f with
    | .err _ => { st with exitCode := some 1, fetches := st.fetches + 1 }
    | .ok s => { st with registry := updateCycle st.registry s, fetches := st.fetches + 1 }

/-- The collector loop run over a list of fetch results, one per cycle. -/
def runLoop (st : LoopState) (fs : List FetchResult) : LoopState :=
  fs.foldl loopStep st

/-- Observable command line of a `server` invocation: the subcommand name
followed by every later token of `os.Args`, verbatim — option tokens such
as `--debug` may appear before, between or after the positional
arguments. -/
structure CmdLine where
  subcommand : String
  tokens : List String
  deriving Repr, DecidableEq

/-- Positional arguments as cobra exposes them to `serverRun` via
`cmd.Flags().Args()`: pflag removes the flags declared on `serverCmd`
wherever they appear among the tokens — the boolean `--debug` takes no
value, `--port` and `--wait` consume the following token (the
space-separated long spellings of server.go lines 103-105; no shorthands
are declared). Every other token is positional. -/
def cobraPositionals : List String → List String
  | [] => []
  | t :: rest =>
    if t = "--debug" then cobraPositionals rest
    else if t = "--port" ∨ t = "--wait" then
      match rest with
      | [] => []
      | _ :: rest2 => cobraPositionals rest2
    else t :: cobraPositionals rest

/-- Argument list of the standard library `flag` package inside `serverRun`:
`flag.Parse()` stops at the first non-flag token of `os.Args[1:]`, which is
the subcommand name itself, so `flag.Args()` is the subcommand followed by
every later token unchanged — including any option tokens, which only cobra
strips. `flag.Arg(i)` returns the empty string out of range. -/
def flagArgs (c : CmdLine) : List String :=
  c.subcommand :: c.tokens

/-- The `kemp.Config` literal built at server.go lines 136-141. -/
structure Config where
  Endpoint : String
  User : String
  Password : String
  Debug : Bool
  deriving Repr, DecidableEq

/-- Outcome of `serverRun` up to the point where the collector goroutine
and HTTP server are started: either the usage/exit path of lines 131-134,
or the loop started with the client configured as at lines 136-141. -/
inductive RunOutcome where
  | usageExit (helpPrinted : Bool) (code : Nat)
  | started (cfg : Config) (final : LoopState)

/-- The `serverRun` function (server.go lines 128-187), with the collector
goroutine run over the given list of fetch results. If the cobra positional
count is not 3, `cmd.Help()` is printed and the process exits with status 1
before the client is built and before any fetch; otherwise the client is
configured from `flag.Arg(1)`, `flag.Arg(2)`, `flag.Arg(3)` and the debug
flag, and the collector loop runs from the initial registry. -/
def serverRun (c : CmdLine) (debug : Bool) (fs : List FetchResult) : RunOutcome :=
  if (cobraPositionals c.tokens).length ≠ 3 then
    .usageExit true 1
  else
    .started
      { Endpoint := (flagArgs c).getD 1 ""
        User := (flagArgs c).getD 2 ""
        Password := (flagArgs c).getD 3 ""
        Debug := debug }
      (runLoop { registry := initialRegistry, exitCode := none, fetches := 0 } fs)

/-- Observable events of one collector-goroutine iteration, in program
order: the `GetStatistics` call, the registry update, the
`time.Sleep(time.Second * time.Duration(waitSeconds))`. -/
inductive LoopEvent where
  | fetch
  | update
  | sleep (seconds : Int)
  deriving Repr, DecidableEq

/-- Event trace of one error-free iteration of the `for` loop at server.go
lines 144-176: fetch, then update, then sleep for `waitSeconds` seconds. -/
def cycleTrace (waitSeconds : Int) : List LoopEvent :=
  [.fetch, .update, .sleep waitSeconds]

/-- Event trace of `n` consecutive error-free iterations of the collector
loop: the loop never starts iteration `k+1` before iteration `k` has
finished, so the traces concatenate. -/
def loopTrace (waitSeconds : Int) : Nat → List LoopEvent
  | 0 => []
  | n + 1 => cycleTrace waitSeconds ++ loopTrace waitSeconds n

/-- Last record of a list whose label pair is `k`: the record whose values
survive a left-to-right pass of `WithLabelValues(...).Set(...)` calls. -/
def findLastKey : List ServerStat → String × String → Option ServerStat
  | [], _ => none
  | vs :: l, k =>
    match findLastKey l k with
    | some r => some r
    | none => if statKey vs = k then some vs else none

/-- Generic form of one gauge-vector column of the server loops: fold a
list of records into a gauge vector, setting field `f` of each record at
its label pair. -/
def applyStats (g : GaugeVec) (l : List ServerStat) (f : ServerStat → Int) : GaugeVec :=
  l.foldl (fun g2 vs => g2.set (statKey vs) (f vs)) g

/-- Number of `GetStatistics` calls a finished `serverRun` has made. -/
def RunOutcome.fetchesAttempted : RunOutcome → Nat
  | .usageExit _ _ => 0
  | .started _ st => st.fetches

/-- Exit status of a finished `serverRun` (`none`: still running). -/
def RunOutcome.exitStatus : RunOutcome → Option Nat
  | .usageExit _ code => some code
  | .started _ st => st.exitCode

/-- Whether `cmd.Help()` was printed. -/
def RunOutcome.usagePrinted : RunOutcome → Bool
  | .usageExit h _ => h
  | .started _ _ => false

/-- Concrete virtual-server record of Scenario A of the specification. -/
def vsDemo : ServerStat :=
  { Address := "10.0.0.1", Port := 80, TotalConnections := 100, TotalPackets := 7
    TotalBytes := 9000, ActiveConnections := 3, ConnectionsPerSec := 5
    BytesRead := 400, BytesWritten := 500 }

/-- The same virtual server with total connections updated to 150
(Scenario B of the specification). -/
def vsDemo150 : ServerStat := { vsDemo with TotalConnections := 150 }

/-- A concrete real-server record on a different key. -/
def rsDemo : ServerStat :=
  { Address := "192.168.0.1", Port := 8080, TotalConnections := 20, TotalPackets := 2
    TotalBytes := 300, ActiveConnections := 1, ConnectionsPerSec := 4
    BytesRead := 50, BytesWritten := 60 }

/-- Scenario A snapshot. -/
def snapA : Statistics :=
  { Totals := { ConnectionsPerSec := 5, BytesPerSec := 1000, PacketsPerSec := 50 }
    VirtualServers := [vsDemo], RealServers := [] }

/-- Scenario B snapshot: same virtual server, total connections now 150. -/
def snapB : Statistics :=
  { Totals := { ConnectionsPerSec := 6, BytesPerSec := 1100, PacketsPerSec := 60 }
    VirtualServers := [vsDemo150], RealServers := [] }

/-- A snapshot that does not mention the Scenario A key at all. -/
def snapOther : Statistics :=
  { Totals := { ConnectionsPerSec := 9, BytesPerSec := 9, PacketsPerSec := 9 }
    VirtualServers := [rsDemo], RealServers := [rsDemo] }

section Lemmas

lemma applyStats_nil (g : GaugeVec) (f : ServerStat → Int) : applyStats g [] f = g := rfl

lemma applyStats_cons (g : GaugeVec) (a : ServerStat) (l : List ServerStat)
    (f : ServerStat → Int) :
    applyStats g (a :: l) f = applyStats (g.set (statKey a) (f a)) l f := rfl

lemma applyStats_get (g : GaugeVec) (l : List ServerStat) (f : ServerStat → Int)
    (k : String × String) :
    applyStats g l f k =
      match findLastKey l k with
      | some vs => some (f vs)
      | none => g k := by
  induction l generalizing g with
  | nil => rfl
  | cons a t ih =>
    rw [applyStats_cons, ih]
    cases h : findLastKey t k with
    | some r => simp [findLastKey, h]
    | none =>
      simp only [findLastKey, h]
      by_cases hk : statKey a = k
      · subst hk
        simp [GaugeVec.set]
      · simp [GaugeVec.set, hk, Ne.symm hk]

lemma applyStats_idem (g : GaugeVec) (l : List ServerStat) (f : ServerStat → Int) :
    applyStats (applyStats g l f) l f = applyStats g l f := by
  funext k
  rw [applyStats_get, applyStats_get]
  cases h : findLastKey l k with
  | some r => rfl
  | none => rfl

lemma findLastKey_eq_none {l : List ServerStat} {k : String × String}
    (h : k ∉ l.map statKey) : findLastKey l k = none := by
  induction l with
  | nil => rfl
  | cons a t ih =>
    simp only [List.map_cons, List.mem_cons, not_or] at h
    rw [findLastKey, ih h.2]
    simp [Ne.symm h.1]

lemma findLastKey_nodup {l : List ServerStat} (h : (l.map statKey).Nodup)
    {vs : ServerStat} (hm : vs ∈ l) : findLastKey l (statKey vs) = some vs := by
  induction l with
  | nil => cases hm
  | cons a t ih =>
    simp only [List.map_cons, List.nodup_cons] at h
    rcases List.mem_cons.mp hm with rfl | hm2
    · rw [findLastKey, findLastKey_eq_none h.1]
      simp
    · rw [findLastKey, ih h.2 hm2]

lemma foldl_setVirtualServer_eq (l : List ServerStat) (r : Registry) :
    l.foldl setVirtualServer r =
      { r with
        virtualServerTotalConnections :=
          applyStats r.virtualServerTotalConnections l (fun v => v.TotalConnections)
        virtualServerTotalPackets :=
          applyStats r.virtualServerTotalPackets l (fun v => v.TotalPackets)
        virtualServerTotalBytes :=
          applyStats r.virtualServerTotalBytes l (fun v => v.TotalBytes)
        virtualServerActiveConnections :=
          applyStats r.virtualServerActiveConnections l (fun v => v.ActiveConnections)
        virtualServerConnsPerSec :=
          applyStats r.virtualServerConnsPerSec l (fun v => v.ConnectionsPerSec)
        virtualServerBytesRead :=
          applyStats r.virtualServerBytesRead l (fun v => v.BytesRead)
        virtualServerBytesWritten :=
          applyStats r.virtualServerBytesWritten l (fun v => v.BytesWritten) } := by
  induction l generalizing r with
  | nil => rfl
  | cons a t ih =>
    rw [List.foldl_cons, ih]
    rfl

lemma foldl_setRealServer_eq (l : List ServerStat) (r : Registry) :
    l.foldl setRealServer r =
      { r with
        realServerTotalConnections :=
          applyStats r.realServerTotalConnections l (fun v => v.TotalConnections)
        realServerTotalPackets :=
          applyStats r.realServerTotalPackets l (fun v => v.TotalPackets)
        realServerTotalBytes :=
          applyStats r.realServerTotalBytes l (fun v => v.TotalBytes)
        realServerActiveConnections :=
          applyStats r.realServerActiveConnections l (fun v => v.ActiveConnections)
        realServerConnsPerSec :=
          applyStats r.realServerConnsPerSec l (fun v => v.ConnectionsPerSec)
        realServerBytesRead :=
          applyStats r.realServerBytesRead l (fun v => v.BytesRead)
        realServerBytesWritten :=
          applyStats r.realServerBytesWritten l (fun v => v.BytesWritten) } := by
  induction l generalizing r with
  | nil => rfl
  | cons a t ih =>
    rw [List.foldl_cons, ih]
    rfl

lemma updateCycle_eq (r : Registry) (s : Statistics) :
    updateCycle r s =
      { connsPerSec := s.Totals.ConnectionsPerSec
        bytesPerSec := s.Totals.BytesPerSec
        packetsPerSec := s.Totals.PacketsPerSec
        virtualServerTotalConnections :=
          applyStats r.virtualServerTotalConnections s.VirtualServers (fun v => v.TotalConnections)
        virtualServerTotalPackets :=
          applyStats r.virtualServerTotalPackets s.VirtualServers (fun v => v.TotalPackets)
        virtualServerTotalBytes :=
          applyStats r.virtualServerTotalBytes s.VirtualServers (fun v => v.TotalBytes)
        virtualServerActiveConnections :=
          applyStats r.virtualServerActiveConnections s.VirtualServers (fun v => v.ActiveConnections)
        virtualServerConnsPerSec :=
          applyStats r.virtualServerConnsPerSec s.VirtualServers (fun v => v.ConnectionsPerSec)
        virtualServerBytesRead :=
          applyStats r.virtualServerBytesRead s.VirtualServers (fun v => v.BytesRead)
        virtualServerBytesWritten :=
          applyStats r.virtualServerBytesWritten s.VirtualServers (fun v => v.BytesWritten)
        realServerTotalConnections :=
          applyStats r.realServerTotalConnections s.RealServers (fun v => v.TotalConnections)
        realServerTotalPackets :=
          applyStats r.realServerTotalPackets s.RealServers (fun v => v.TotalPackets)
        realServerTotalBytes :=
          applyStats r.realServerTotalBytes s.RealServers (fun v => v.TotalBytes)
        realServerActiveConnections :=
          applyStats r.realServerActiveConnections s.RealServers (fun v => v.ActiveConnections)
        realServerConnsPerSec :=
          applyStats r.realServerConnsPerSec s.RealServers (fun v => v.ConnectionsPerSec)
        realServerBytesRead :=
          applyStats r.realServerBytesRead s.RealServers (fun v => v.BytesRead)
        realServerBytesWritten :=
          applyStats r.realServerBytesWritten s.RealServers (fun v => v.BytesWritten) } := by
  unfold updateCycle
  rw [foldl_setVirtualServer_eq, foldl_setRealServer_eq]

lemma runLoop_ok_list (r : Registry) (n : Nat) (ss : List Statistics) :
    runLoop { registry := r, exitCode := none, fetches := n } (ss.map FetchResult.ok) =
      { registry := ss.foldl updateCycle r, exitCode := none, fetches := n + ss.length } := by
  induction ss generalizing r n with
  | nil => rfl
  | cons a t ih =>
    simp only [List.map_cons, List.foldl_cons, runLoop, List.foldl, loopStep]
    have := ih (updateCycle r a) (n + 1)
    simp only [runLoop] at this
    rw [this]
    simp [Nat.add_comm, Nat.add_assoc, Nat.add_left_comm, List.length_cons]

lemma runLoop_exited (st : LoopState) (c : Nat) (h : st.exitCode = some c)
    (fs : List FetchResult) : runLoop st fs = st := by
  induction fs with
  | nil => rfl
  | cons a t ih =>
    simp only [runLoop, List.foldl_cons, loopStep, h]
    exact ih

lemma runLoop_append (st : LoopState) (fs1 fs2 : List FetchResult) :
    runLoop st (fs1 ++ fs2) = runLoop (runLoop st fs1) fs2 := by
  simp [runLoop, List.foldl_append]

lemma runLoop_cons (st : LoopState) (f : FetchResult) (fs : List FetchResult) :
    runLoop st (f :: fs) = runLoop (loopStep st f) fs := rfl

lemma loopTrace_length (w : Int) (n : Nat) : (loopTrace w n).length = 3 * n := by
  induction n with
  | zero => rfl
  | succ m ih => simp [loopTrace, cycleTrace, ih]; omega

end Lemmas

/-- C1: one update cycle sets the three unlabeled gauges to the snapshot's
Totals values and, for every record of the VirtualServers and RealServers
collections (keys pairwise distinct within each collection), sets each of
the seven corresponding labeled gauges at the key (address, port), the port
rendered in its decimal string form. -/
theorem updateCycle_sets_gauges (r : Registry) (s : Statistics)
    (hv : (s.VirtualServers.map statKey).Nodup)
    (hr : (s.RealServers.map statKey).Nodup) :
    (updateCycle r s).connsPerSec = s.Totals.ConnectionsPerSec ∧
    (updateCycle r s).bytesPerSec = s.Totals.BytesPerSec ∧
    (updateCycle r s).packetsPerSec = s.Totals.PacketsPerSec ∧
    (∀ vs ∈ s.VirtualServers,
      (updateCycle r s).virtualServerTotalConnections (vs.Address, toString vs.Port)
        = some vs.TotalConnections ∧
      (updateCycle r s).virtualServerTotalPackets (vs.Address, toString vs.Port)
        = some vs.TotalPackets ∧
      (updateCycle r s).virtualServerTotalBytes (vs.Address, toString vs.Port)
        = some vs.TotalBytes ∧
      (updateCycle r s).virtualServerActiveConnections (vs.Address, toString vs.Port)
        = some vs.ActiveConnections ∧
      (updateCycle r s).virtualServerConnsPerSec (vs.Address, toString vs.Port)
        = some vs.ConnectionsPerSec ∧
      (updateCycle r s).virtualServerBytesRead (vs.Address, toString vs.Port)
        = some vs.BytesRead ∧
      (updateCycle r s).virtualServerBytesWritten (vs.Address, toString vs.Port)
        = some vs.BytesWritten) ∧
    (∀ rs ∈ s.RealServers,
      (updateCycle r s).realServerTotalConnections (rs.Address, toString rs.Port)
        = some rs.TotalConnections ∧
      (updateCycle r s).realServerTotalPackets (rs.Address, toString rs.Port)
        = some rs.TotalPackets ∧
      (updateCycle r s).realServerTotalBytes (rs.Address, toString rs.Port)
        = some rs.TotalBytes ∧
      (updateCycle r s).realServerActiveConnections (rs.Address, toString rs.Port)
        = some rs.ActiveConnections ∧
      (updateCycle r s).realServerConnsPerSec (rs.Address, toString rs.Port)
        = some rs.ConnectionsPerSec ∧
      (updateCycle r s).realServerBytesRead (rs.Address, toString rs.Port)
        = some rs.BytesRead ∧
      (updateCycle r s).realServerBytesWritten (rs.Address, toString rs.Port)
        = some rs.BytesWritten) := by
  refine ⟨by rw [updateCycle_eq], by rw [updateCycle_eq], by rw [updateCycle_eq], ?_, ?_⟩
  · intro vs hm
    have hk : findLastKey s.VirtualServers (vs.Address, toString vs.Port) = some vs :=
      findLastKey_nodup hv hm
    refine ⟨?_, ?_, ?_, ?_, ?_, ?_, ?_⟩ <;>
      (simp only [updateCycle_eq]; rw [applyStats_get, hk])
  · intro rs hm
    have hk : findLastKey s.RealServers (rs.Address, toString rs.Port) = some rs :=
      findLastKey_nodup hr hm
    refine ⟨?_, ?_, ?_, ?_, ?_, ?_, ?_⟩ <;>
      (simp only [updateCycle_eq]; rw [applyStats_get, hk])

/-- Witness for C1 at Scenario A: connections/sec = 5, bytes/sec = 1000,
packets/sec = 50, and the virtual-server total-connections gauge at
("10.0.0.1", "80") reads 100. -/
theorem updateCycle_sets_gauges_witness :
    (updateCycle initialRegistry snapA).connsPerSec = 5 ∧
    (updateCycle initialRegistry snapA).virtualServerTotalConnections ("10.0.0.1", "80")
      = some 100 := by
  have h := updateCycle_sets_gauges initialRegistry snapA (by decide) (by decide)
  exact ⟨h.1, (h.2.2.2.1 vsDemo (by decide)).1⟩

/-- C4: applying the same snapshot twice in a row leaves the registry in
the same state as applying it once. -/
theorem updateCycle_idempotent (r : Registry) (s : Statistics) :
    updateCycle (updateCycle r s) s = updateCycle r s := by
  simp only [updateCycle_eq, applyStats_idem]

/-- C5: updating a labeled gauge value for one key never changes the
recorded value of the same metric for a different key — at the level of a
single create-or-update on a gauge vector, and for the per-record update of
the seven virtual-server and seven real-server gauge vectors. -/
theorem label_isolation (g : GaugeVec) (r : Registry) (st : ServerStat)
    (a pa b pb : String) (v : Int)
    (hab : (b, pb) ≠ (a, pa)) (hst : (b, pb) ≠ statKey st) :
    (g.set (a, pa) v) (b, pb) = g (b, pb) ∧
    (setVirtualServer r st).virtualServerTotalConnections (b, pb)
      = r.virtualServerTotalConnections (b, pb) ∧
    (setVirtualServer r st).virtualServerTotalPackets (b, pb)
      = r.virtualServerTotalPackets (b, pb) ∧
    (setVirtualServer r st).virtualServerTotalBytes (b, pb)
      = r.virtualServerTotalBytes (b, pb) ∧
    (setVirtualServer r st).virtualServerActiveConnections (b, pb)
      = r.virtualServerActiveConnections (b, pb) ∧
    (setVirtualServer r st).virtualServerConnsPerSec (b, pb)
      = r.virtualServerConnsPerSec (b, pb) ∧
    (setVirtualServer r st).virtualServerBytesRead (b, pb)
      = r.virtualServerBytesRead (b, pb) ∧
    (setVirtualServer r st).virtualServerBytesWritten (b, pb)
      = r.virtualServerBytesWritten (b, pb) ∧
    (setRealServer r st).realServerTotalConnections (b, pb)
      = r.realServerTotalConnections (b, pb) ∧
    (setRealServer r st).realServerTotalPackets (b, pb)
      = r.realServerTotalPackets (b, pb) ∧
    (setRealServer r st).realServerTotalBytes (b, pb)
      = r.realServerTotalBytes (b, pb) ∧
    (setRealServer r st).realServerActiveConnections (b, pb)
      = r.realServerActiveConnections (b, pb) ∧
    (setRealServer r st).realServerConnsPerSec (b, pb)
      = r.realServerConnsPerSec (b, pb) ∧
    (setRealServer r st).realServerBytesRead (b, pb)
      = r.realServerBytesRead (b, pb) ∧
    (setRealServer r st).realServerBytesWritten (b, pb)
      = r.realServerBytesWritten (b, pb) := by
  refine ⟨?_, ?_, ?_, ?_, ?_, ?_, ?_, ?_, ?_, ?_, ?_, ?_, ?_, ?_, ?_⟩ <;>
    simp [GaugeVec.set, setVirtualServer, setRealServer, hab, hst]

/-- Witness for C5: setting key ("10.0.0.1", "80") leaves the distinct key
("10.0.0.2", "80") unchanged on an empty gauge vector. -/
theorem label_isolation_witness :
    GaugeVec.set (fun _ => none) ("10.0.0.1", "80") 100 ("10.0.0.2", "80") = none :=
  (label_isolation (fun _ => none) initialRegistry vsDemo
    "10.0.0.1" "80" "10.0.0.2" "80" 100 (by decide) (by decide)).1

/-- C7: updates are last-write-wins overwrites: whenever the last record of
a snapshot collection carrying a given key has been processed, the cycle
leaves each of the seven labeled gauges at that key reading exactly that
record's field values, independently of what the registry held before —
no accumulation, and the rate field (connections/sec) is stored as-is. -/
theorem last_write_wins (r : Registry) (s : Statistics) (k : String × String) :
    (∀ vs, findLastKey s.VirtualServers k = some vs →
      (updateCycle r s).virtualServerTotalConnections k = some vs.TotalConnections ∧
      (updateCycle r s).virtualServerTotalPackets k = some vs.TotalPackets ∧
      (updateCycle r s).virtualServerTotalBytes k = some vs.TotalBytes ∧
      (updateCycle r s).virtualServerActiveConnections k = some vs.ActiveConnections ∧
      (updateCycle r s).virtualServerConnsPerSec k = some vs.ConnectionsPerSec ∧
      (updateCycle r s).virtualServerBytesRead k = some vs.BytesRead ∧
      (updateCycle r s).virtualServerBytesWritten k = some vs.BytesWritten) ∧
    (∀ rs, findLastKey s.RealServers k = some rs →
      (updateCycle r s).realServerTotalConnections k = some rs.TotalConnections ∧
      (updateCycle r s).realServerTotalPackets k = some rs.TotalPackets ∧
      (updateCycle r s).realServerTotalBytes k = some rs.TotalBytes ∧
      (updateCycle r s).realServerActiveConnections k = some rs.ActiveConnections ∧
      (updateCycle r s).realServerConnsPerSec k = some rs.ConnectionsPerSec ∧
      (updateCycle r s).realServerBytesRead k = some rs.BytesRead ∧
      (updateCycle r s).realServerBytesWritten k = some rs.BytesWritten) := by
  constructor <;> intro x hx <;>
    refine ⟨?_, ?_, ?_, ?_, ?_, ?_, ?_⟩ <;>
      (simp only [updateCycle_eq]; rw [applyStats_get, hx])

/-- Witness for C7 at Scenario B: after a cycle wrote 100, the next cycle
carrying 150 leaves the gauge at exactly 150, not 250. -/
theorem last_write_wins_witness :
    (updateCycle (updateCycle initialRegistry snapA) snapB).virtualServerTotalConnections
      ("10.0.0.1", "80") = some 150 :=
  ((last_write_wins (updateCycle initialRegistry snapA) snapB ("10.0.0.1", "80")).1
    vsDemo150 (by decide)).1

/-- C2: if any fetch errs, the collector logs and exits with status 1; the
registry is left exactly as the successful cycles before the failure wrote
it (no partial application of the failed cycle), the failing call is the
last fetch ever made (no retry), and none of the later cycles runs. -/
theorem fetch_error_fatal (r0 : Registry) (ss : List Statistics) (msg : String)
    (rest : List FetchResult) :
    (runLoop { registry := r0, exitCode := none, fetches := 0 }
        (ss.map FetchResult.ok ++ FetchResult.err msg :: rest)).exitCode = some 1 ∧
    (runLoop { registry := r0, exitCode := none, fetches := 0 }
        (ss.map FetchResult.ok ++ FetchResult.err msg :: rest)).registry
      = ss.foldl updateCycle r0 ∧
    (runLoop { registry := r0, exitCode := none, fetches := 0 }
        (ss.map FetchResult.ok ++ FetchResult.err msg :: rest)).fetches
      = ss.length + 1 := by
  rw [runLoop_append, runLoop_ok_list, runLoop_cons]
  rw [show loopStep
        { registry := ss.foldl updateCycle r0, exitCode := none, fetches := 0 + ss.length }
        (FetchResult.err msg)
      = { registry := ss.foldl updateCycle r0, exitCode := some 1,
          fetches := 0 + ss.length + 1 } from rfl]
  rw [runLoop_exited _ 1 rfl]
  exact ⟨rfl, rfl, by simp⟩

/-- C3: the code does not satisfy the claim. For the legal invocation
`server --debug ep user pw` the cobra positionals are exactly
`[ep, user, pw]` — first positional `ep`, so the claim requires
Endpoint = "ep", User = "user", Password = "pw" — and the count check
passes, yet `serverRun` reads `flag.Arg(1..3)` from the standard flag
package's list, which still contains the `--debug` token, and builds the
client with Endpoint = "--debug", User = "ep", Password = "user". -/
theorem config_misaligned_on_interspersed_flag :
    cobraPositionals ["--debug", "ep", "user", "pw"] = ["ep", "user", "pw"] ∧
    serverRun { subcommand := "server", tokens := ["--debug", "ep", "user", "pw"] } true []
      = .started { Endpoint := "--debug", User := "ep", Password := "user", Debug := true }
          { registry := initialRegistry, exitCode := none, fetches := 0 } ∧
    "--debug" ≠ "ep" :=
  ⟨rfl, rfl, by decide⟩

/-- C6: label entries are append-only: a key absent from the next snapshot
keeps, for all fourteen labeled gauges, exactly the value the previous
cycle left there — no entry is removed or cleared by an update cycle. -/
theorem append_only_labels (r : Registry) (s1 s2 : Statistics) (k : String × String)
    (hv : k ∉ s2.VirtualServers.map statKey) (hr : k ∉ s2.RealServers.map statKey) :
    (updateCycle (updateCycle r s1) s2).virtualServerTotalConnections k
      = (updateCycle r s1).virtualServerTotalConnections k ∧
    (updateCycle (updateCycle r s1) s2).virtualServerTotalPackets k
      = (updateCycle r s1).virtualServerTotalPackets k ∧
    (updateCycle (updateCycle r s1) s2).virtualServerTotalBytes k
      = (updateCycle r s1).virtualServerTotalBytes k ∧
    (updateCycle (updateCycle r s1) s2).virtualServerActiveConnections k
      = (updateCycle r s1).virtualServerActiveConnections k ∧
    (updateCycle (updateCycle r s1) s2).virtualServerConnsPerSec k
      = (updateCycle r s1).virtualServerConnsPerSec k ∧
    (updateCycle (updateCycle r s1) s2).virtualServerBytesRead k
      = (updateCycle r s1).virtualServerBytesRead k ∧
    (updateCycle (updateCycle r s1) s2).virtualServerBytesWritten k
      = (updateCycle r s1).virtualServerBytesWritten k ∧
    (updateCycle (updateCycle r s1) s2).realServerTotalConnections k
      = (updateCycle r s1).realServerTotalConnections k ∧
    (updateCycle (updateCycle r s1) s2).realServerTotalPackets k
      = (updateCycle r s1).realServerTotalPackets k ∧
    (updateCycle (updateCycle r s1) s2).realServerTotalBytes k
      = (updateCycle r s1).realServerTotalBytes k ∧
    (updateCycle (updateCycle r s1) s2).realServerActiveConnections k
      = (updateCycle r s1).realServerActiveConnections k ∧
    (updateCycle (updateCycle r s1) s2).realServerConnsPerSec k
      = (updateCycle r s1).realServerConnsPerSec k ∧
    (updateCycle (updateCycle r s1) s2).realServerBytesRead k
      = (updateCycle r s1).realServerBytesRead k ∧
    (updateCycle (updateCycle r s1) s2).realServerBytesWritten k
      = (updateCycle r s1).realServerBytesWritten k := by
  have h1 := findLastKey_eq_none hv
  have h2 := findLastKey_eq_none hr
  refine ⟨?_, ?_, ?_, ?_, ?_, ?_, ?_, ?_, ?_, ?_, ?_, ?_, ?_, ?_⟩ <;>
    (simp only [updateCycle_eq (updateCycle r s1) s2]; rw [applyStats_get];
      simp only [h1, h2])

/-- Witness for C6: the Scenario A key is absent from `snapOther`, and its
virtual-server total-connections value survives the `snapOther` cycle. -/
theorem append_only_labels_witness :
    (updateCycle (updateCycle initialRegistry snapA) snapOther).virtualServerTotalConnections
        ("10.0.0.1", "80")
      = (updateCycle initialRegistry snapA).virtualServerTotalConnections
        ("10.0.0.1", "80") :=
  (append_only_labels initialRegistry snapA snapOther ("10.0.0.1", "80")
    (by decide) (by decide)).1

/-- C8: with a positional-argument count other than three, `serverRun`
prints the usage text and exits with status 1 without building the client
and without a single fetch. -/
theorem bad_arg_count_exits (c : CmdLine) (debug : Bool) (fs : List FetchResult)
    (h : (cobraPositionals c.tokens).length ≠ 3) :
    serverRun c debug fs = .usageExit true 1 ∧
    (serverRun c debug fs).usagePrinted = true ∧
    (serverRun c debug fs).exitStatus = some 1 ∧
    (serverRun c debug fs).fetchesAttempted = 0 := by
  have he : serverRun c debug fs = .usageExit true 1 := by
    unfold serverRun
    rw [if_pos h]
  exact ⟨he, by rw [he]; rfl, by rw [he]; rfl, by rw [he]; rfl⟩

/-- Witness for C8: two positionals instead of three. -/
theorem bad_arg_count_exits_witness :
    serverRun { subcommand := "server", tokens := ["host", "user"] }
        false [] = .usageExit true 1 :=
  (bad_arg_count_exits
    { subcommand := "server", tokens := ["host", "user"] }
    false [] (by decide)).1

/-- C9: the error-free collector trace consists of cycles of exactly three
events in program order — fetch, then update, then a sleep of the
configured `waitSeconds` — so cycle k occupies positions 3k, 3k+1, 3k+2
and the next fetch (position 3(k+1)) comes only after that sleep. -/
theorem loop_cycle_order (w : Int) (n k : Nat) (h : k < n) :
    (loopTrace w n).length = 3 * n ∧
    (loopTrace w n)[3 * k]? = some LoopEvent.fetch ∧
    (loopTrace w n)[3 * k + 1]? = some LoopEvent.update ∧
    (loopTrace w n)[3 * k + 2]? = some (LoopEvent.sleep w) := by
  refine ⟨loopTrace_length w n, ?_⟩
  induction n generalizing k with
  | zero => omega
  | succ m ih =>
    cases k with
    | zero => simp [loopTrace, cycleTrace]
    | succ j =>
      have hj : j < m := by omega
      have e1 : 3 * (j + 1) = 3 + 3 * j := by ring
      have e2 : 3 * (j + 1) + 1 = 3 + (3 * j + 1) := by ring
      have e3 : 3 * (j + 1) + 2 = 3 + (3 * j + 2) := by ring
      have hlen : (cycleTrace w).length = 3 := rfl
      refine ⟨?_, ?_, ?_⟩
      · rw [loopTrace, e1, List.getElem?_append_right (by rw [hlen]; omega), hlen]
        have hx : 3 + 3 * j - 3 = 3 * j := by omega
        rw [hx]
        exact (ih j hj).1
      · rw [loopTrace, e2, List.getElem?_append_right (by rw [hlen]; omega), hlen]
        have hx : 3 + (3 * j + 1) - 3 = 3 * j + 1 := by omega
        rw [hx]
        exact (ih j hj).2.1
      · rw [loopTrace, e3, List.getElem?_append_right (by rw [hlen]; omega), hlen]
        have hx : 3 + (3 * j + 2) - 3 = 3 * j + 2 := by omega
        rw [hx]
        exact (ih j hj).2.2

/-- Witness for C9: two cycles, second cycle at positions 3, 4, 5. -/
theorem loop_cycle_order_witness :
    (loopTrace 10 2).length = 3 * 2 ∧
    (loopTrace 10 2)[3 * 1]? = some LoopEvent.fetch ∧
    (loopTrace 10 2)[3 * 1 + 1]? = some LoopEvent.update ∧
    (loopTrace 10 2)[3 * 1 + 2]? = some (LoopEvent.sleep 10) :=
  loop_cycle_order 10 2 1 (by decide)

/-- C10: the virtual-server and real-server statistics live in disjoint
metric families: the real-server loop changes no virtual-server gauge
vector, the virtual-server loop changes no real-server gauge vector, and a
key present in both collections carries two independent values. -/
theorem server_families_disjoint :
    (∀ (r : Registry) (l : List ServerStat),
      (l.foldl setRealServer r).virtualServerTotalConnections
        = r.virtualServerTotalConnections ∧
      (l.foldl setRealServer r).virtualServerTotalPackets
        = r.virtualServerTotalPackets ∧
      (l.foldl setRealServer r).virtualServerTotalBytes
        = r.virtualServerTotalBytes ∧
      (l.foldl setRealServer r).virtualServerActiveConnections
        = r.virtualServerActiveConnections ∧
      (l.foldl setRealServer r).virtualServerConnsPerSec
        = r.virtualServerConnsPerSec ∧
      (l.foldl setRealServer r).virtualServerBytesRead
        = r.virtualServerBytesRead ∧
      (l.foldl setRealServer r).virtualServerBytesWritten
        = r.virtualServerBytesWritten) ∧
    (∀ (r : Registry) (l : List ServerStat),
      (l.foldl setVirtualServer r).realServerTotalConnections
        = r.realServerTotalConnections ∧
      (l.foldl setVirtualServer r).realServerTotalPackets
        = r.realServerTotalPackets ∧
      (l.foldl setVirtualServer r).realServerTotalBytes
        = r.realServerTotalBytes ∧
      (l.foldl setVirtualServer r).realServerActiveConnections
        = r.realServerActiveConnections ∧
      (l.foldl setVirtualServer r).realServerConnsPerSec
        = r.realServerConnsPerSec ∧
      (l.foldl setVirtualServer r).realServerBytesRead
        = r.realServerBytesRead ∧
      (l.foldl setVirtualServer r).realServerBytesWritten
        = r.realServerBytesWritten) ∧
    (∀ (r : Registry) (s : Statistics) (k : String × String) (vs rs : ServerStat),
      findLastKey s.VirtualServers k = some vs →
      findLastKey s.RealServers k = some rs →
      (updateCycle r s).virtualServerTotalConnections k = some vs.TotalConnections ∧
      (updateCycle r s).realServerTotalConnections k = some rs.TotalConnections) := by
  refine ⟨?_, ?_, ?_⟩
  · intro r l
    rw [foldl_setRealServer_eq]
    exact ⟨rfl, rfl, rfl, rfl, rfl, rfl, rfl⟩
  · intro r l
    rw [foldl_setVirtualServer_eq]
    exact ⟨rfl, rfl, rfl, rfl, rfl, rfl, rfl⟩
  · intro r s k vs rs hv hr
    constructor <;> (simp only [updateCycle_eq]; rw [applyStats_get]) <;>
      simp only [hv, hr]

/-- Witness for C10: `snapOther` carries the record `rsDemo` in both
collections; both family values for its key are present and independent. -/
theorem server_families_disjoint_witness :
    (updateCycle initialRegistry snapOther).virtualServerTotalConnections
        ("192.168.0.1", "8080") = some 20 ∧
    (updateCycle initialRegistry snapOther).realServerTotalConnections
        ("192.168.0.1", "8080") = some 20 :=
  server_families_disjoint.2.2 initialRegistry snapOther ("192.168.0.1", "8080")
    rsDemo rsDemo (by decide) (by decide)

end KempExporter
